import Mathlib

/-!
Verification of the Gruha Alankara AI engine (`ai_engine.py`).

The Python module is shallowly embedded:
* `random` (seeded Mersenne-Twister) is abstracted as an explicit record
  `PyRandom` of deterministic state-passing draw functions together with a
  `seed` function; `random.seed(n)` followed by draws is modelled by threading
  the state produced by `seed n` through the draw functions in source order.
* `uuid.uuid4()` (unseeded entropy) is an explicit `String` argument standing
  for the value drawn by that call.
* Floats are modelled by `ℚ`; Python `round` is half-to-even rounding.
* Exceptions are modelled with `Except PyError`.
* Filesystem facts (`os.path.isfile`) are an explicit predicate argument.
-/

/-- Python whitespace characters (the default set stripped/split by `str.strip`
and `str.split`). -/
def isPyWs (c : Char) : Bool :=
  c = ' ' || c = '\t' || c = '\n' || c = '\r' || c = '\x0b' || c = '\x0c'

/-- Python `str.strip()` with no arguments. -/
def pyStrip (s : String) : String :=
  String.mk (((s.data.dropWhile isPyWs).reverse.dropWhile isPyWs).reverse)

/-- Python `str.lower()` (ASCII case mapping). -/
def pyLower (s : String) : String := String.mk (s.data.map Char.toLower)

/-- Python `str.upper()` (ASCII case mapping). -/
def pyUpper (s : String) : String := String.mk (s.data.map Char.toUpper)

/-- Auxiliary for `str.title()`: the flag records whether the previous
character was cased (alphabetic). -/
def pyTitleAux : Bool → List Char → List Char
  | _, [] => []
  | prevCased, c :: rest =>
    if c.isAlpha then
      (if prevCased then c.toLower else c.toUpper) :: pyTitleAux true rest
    else
      c :: pyTitleAux false rest

/-- Python `str.title()` (ASCII case mapping). -/
def pyTitle (s : String) : String := String.mk (pyTitleAux false s.data)

/-- Accumulator-based splitting on whitespace runs: `acc` holds the current
token's characters in reverse. -/
def splitWsAux : List Char → List Char → List String
  | [], acc => if acc = [] then [] else [String.mk acc.reverse]
  | c :: rest, acc =>
    if isPyWs c then
      if acc = [] then splitWsAux rest []
      else String.mk acc.reverse :: splitWsAux rest []
    else splitWsAux rest (c :: acc)

/-- Python `str.split()` with no arguments: split on whitespace runs,
dropping empty tokens. -/
def pySplitWs (s : String) : List String := splitWsAux s.data []

/-- Python substring containment `sub in s`. -/
def strContains (s sub : String) : Bool := decide (sub.data <:+: s.data)

/-- Python `s.endswith(suf)`, as a decidable proposition. -/
def StrEndsWith (s suf : String) : Prop := suf.data <:+ s.data

instance (s suf : String) : Decidable (StrEndsWith s suf) := by
  unfold StrEndsWith; infer_instance

/-- Python `dict.get` over an insertion-ordered association list. -/
def dictGet {α : Type} (d : List (String × α)) (k : String) : Option α :=
  match d with
  | [] => none
  | (k2, v) :: rest => if k = k2 then some v else dictGet rest k

/-- Round a rational to the nearest integer, ties to even, using only integer
arithmetic on the (reduced) numerator and positive denominator: `f` is the
floor and `rem = num - f * den` compares to `den / 2` to classify the
fractional part. -/
def roundHalfEven (q : ℚ) : Int :=
  let d : Int := (q.den : Int)
  let f : Int := Int.fdiv q.num d
  let rem : Int := q.num - f * d
  if 2 * rem < d then f
  else if d < 2 * rem then f + 1
  else if f % 2 = 0 then f else f + 1

/-- Python `round(q, ndigits)` on exact rationals: scale by `10 ^ ndigits`,
round half-to-even, scale back. -/
def pyRound (q : ℚ) (ndigits : Nat) : ℚ :=
  mkRat (roundHalfEven (mkRat (q.num * (10 ^ ndigits : ℕ)) q.den)) (10 ^ ndigits)

/-- Python `f"{n:03d}"` for a natural number. -/
def zfill3 (n : Nat) : String :=
  let s := toString n
  if s.length < 3 then String.mk (List.replicate (3 - s.length) '0') ++ s else s

/-- ASCII hexadecimal digit test. -/
def isHexDigit (c : Char) : Bool :=
  c.isDigit || ('a' ≤ c && c ≤ 'f') || ('A' ≤ c && c ≤ 'F')

/-- Value of an ASCII hexadecimal digit. -/
def hexVal (c : Char) : Nat :=
  if c.isDigit then c.toNat - '0'.toNat
  else if 'a' ≤ c then c.toNat - 'a'.toNat + 10
  else c.toNat - 'A'.toNat + 10

/-- Accumulate hexadecimal digits, allowing single underscores between
digits (Python numeric-literal grammar). -/
def hexDigitsVal : Nat → List Char → Option Nat
  | acc, [] => some acc
  | acc, c :: rest =>
    if c = '_' then
      match rest with
      | c2 :: rest2 => if isHexDigit c2 then hexDigitsVal (acc * 16 + hexVal c2) rest2 else none
      | [] => none
    else if isHexDigit c then hexDigitsVal (acc * 16 + hexVal c) rest else none

/-- A nonempty hexadecimal digit string (must start with a digit). -/
def pyIntHexDigits (l : List Char) : Option Nat :=
  match l with
  | c :: rest => if isHexDigit c then hexDigitsVal (hexVal c) rest else none
  | [] => none

/-- Digits with an optional `0x`/`0X` marker (Python `int(s, 16)` accepts it),
the marker optionally followed by one underscore. -/
def pyIntHexBody (l : List Char) : Option Nat :=
  match l with
  | c0 :: c1 :: rest =>
    if c0 = '0' ∧ (c1 = 'x' ∨ c1 = 'X') then
      match rest with
      | r0 :: rest2 => if r0 = '_' then pyIntHexDigits rest2 else pyIntHexDigits rest
      | [] => pyIntHexDigits rest
    else pyIntHexDigits l
  | _ => pyIntHexDigits l

/-- Python `int(s, 16)`: optional surrounding whitespace, optional sign,
optional `0x` marker, then hexadecimal digits; `none` models `ValueError`. -/
def pyIntHex (s : String) : Option Int :=
  let t := ((s.data.dropWhile isPyWs).reverse.dropWhile isPyWs).reverse
  match t with
  | [] => none
  | c :: rest =>
    if c = '+' then (pyIntHexBody rest).map (fun n => (n : Int))
    else if c = '-' then (pyIntHexBody rest).map (fun n => -(n : Int))
    else (pyIntHexBody (c :: rest)).map (fun n => (n : Int))

deriving instance DecidableEq for Except

/-- Python exceptions raised by this module. -/
inductive PyError where
  | fileNotFound (msg : String)
  | valueError (msg : String)
  | indexError (msg : String)
deriving DecidableEq, Repr

/-- An RGB triple as produced by `_hex_to_rgb`. -/
structure Rgb where
  r : Int
  g : Int
  b : Int
deriving DecidableEq, Repr

/-- Python slice `s[a:b]` for `a ≤ b` ASCII positions. -/
def pySlice (s : String) (a b : Nat) : String :=
  String.mk ((s.data.drop a).take (b - a))

/-- `int(s, 16)` with the `ValueError` made explicit. -/
def pyIntHexE (s : String) : Except PyError Int :=
  match pyIntHex s with
  | some v => .ok v
  | none => .error (.valueError ("invalid literal for int() with base 16: " ++ s))

/-- `_hex_to_rgb(hex_color)`: strip leading `#` marks, return black unless the
remainder has length 6, otherwise parse the three 2-digit groups (each parse
can raise `ValueError`, faithfully modelled by `Except`). -/
def _hex_to_rgb (hex_color : String) : Except PyError Rgb :=
  let h := String.mk (hex_color.data.dropWhile (fun c => c = '#'))
  if h.length ≠ 6 then .ok ⟨0, 0, 0⟩
  else do
    let rv ← pyIntHexE (pySlice h 0 2)
    let gv ← pyIntHexE (pySlice h 2 4)
    let bv ← pyIntHexE (pySlice h 4 6)
    return ⟨rv, gv, bv⟩

/-- A furniture entry of the style knowledge base. -/
structure FurnitureTemplate where
  name : String
  material : String
  color : String
  price_inr : Int
  category : String
  placement : String
deriving DecidableEq, Repr

/-- A colour-scheme entry of the style knowledge base. -/
structure ColorSwatch where
  name : String
  hex : String
  usage : String
deriving DecidableEq, Repr

/-- One style's knowledge-base record. -/
structure StyleData where
  furniture : List FurnitureTemplate
  color_scheme : List ColorSwatch
  tips : List String
deriving DecidableEq, Repr

/-- `STYLE_KNOWLEDGE["Modern"]`. -/
def modernData : StyleData where
  furniture := [
    ⟨"Sectional Sofa", "Microfibre", "Slate Grey", 45000, "Seating", "against north wall"⟩,
    ⟨"Glass Coffee Table", "Tempered Glass", "Clear/Chrome", 12000, "Table", "centre of seating area"⟩,
    ⟨"Modular Bookshelf", "MDF Lacquer", "Matte White", 18000, "Storage", "east wall"⟩,
    ⟨"Floor Lamp", "Metal", "Brushed Nickel", 5500, "Lighting", "beside sofa corner"⟩,
    ⟨"Abstract Wall Art", "Canvas", "Multicolour", 8000, "Decor", "focal wall"⟩]
  color_scheme := [
    ⟨"Warm Ivory", "#F5F0E8", "Primary – walls"⟩,
    ⟨"Slate Grey", "#708090", "Secondary – upholstery"⟩,
    ⟨"Charcoal", "#36454F", "Accent – furniture frames"⟩,
    ⟨"Brass Gold", "#C8922A", "Highlight – fixtures"⟩]
  tips := [
    "Keep lines clean and clutter-free — Modern style thrives on negative space.",
    "Use statement lighting to define zones in open-plan layouts.",
    "Incorporate one bold geometric rug to anchor the seating area."]

/-- `STYLE_KNOWLEDGE["Traditional"]`. -/
def traditionalData : StyleData where
  furniture := [
    ⟨"Teak Diwan", "Solid Teak", "Honey Brown", 35000, "Seating", "along east wall"⟩,
    ⟨"Brass Lamp", "Brass", "Antique Gold", 7000, "Lighting", "puja corner"⟩,
    ⟨"Carved Wooden Cabinet", "Sheesham Wood", "Dark Walnut", 55000, "Storage", "facing entrance"⟩,
    ⟨"Jhoola (Swing)", "Teak + Jute", "Natural", 22000, "Seating", "verandah or corner"⟩,
    ⟨"Madhubani Painting", "Canvas", "Earth Tones", 12000, "Decor", "main wall"⟩]
  color_scheme := [
    ⟨"Saffron", "#F4A460", "Primary – walls"⟩,
    ⟨"Deep Maroon", "#800020", "Accent – textiles"⟩,
    ⟨"Turmeric Gold", "#E3A857", "Highlight – brass accents"⟩,
    ⟨"Ivory Cream", "#FFFFF0", "Secondary – ceiling"⟩]
  tips := [
    "Use natural materials — teak, jute, and terracotta — for an authentic feel.",
    "Incorporate brass and copper vessels as decorative and spiritual elements.",
    "Handloom textiles in block-print patterns elevate any traditional space."]

/-- `STYLE_KNOWLEDGE["Minimalist"]`. -/
def minimalistData : StyleData where
  furniture := [
    ⟨"Platform Bed", "Birch Plywood", "Natural Oak", 28000, "Sleeping", "centred on main wall"⟩,
    ⟨"Floating Shelves", "Bamboo", "Light Natural", 6000, "Storage", "above desk"⟩,
    ⟨"Wire Chair", "Steel Wire", "Matte Black", 9500, "Seating", "reading corner"⟩,
    ⟨"Linen Curtains", "Linen", "Off-White", 4500, "Soft Furnishings", "all windows"⟩]
  color_scheme := [
    ⟨"Snow White", "#FFFAFA", "Primary – walls & ceiling"⟩,
    ⟨"Warm Beige", "#F5F5DC", "Secondary – textiles"⟩,
    ⟨"Charcoal Black", "#2F2F2F", "Accent – thin frames"⟩,
    ⟨"Sage Green", "#B2C2B2", "Nature accent – single plant"⟩]
  tips := [
    "Follow the \x27one in, one out\x27 rule — remove one item before adding another.",
    "A single large indoor plant adds life without visual noise.",
    "Hidden storage is essential — choose furniture with integrated compartments."]

/-- `STYLE_KNOWLEDGE["Bohemian"]`. -/
def bohemianData : StyleData where
  furniture := [
    ⟨"Rattan Peacock Chair", "Rattan", "Natural Honey", 15000, "Seating", "window corner"⟩,
    ⟨"Moroccan Poufs", "Leather", "Caramel", 5000, "Seating", "around coffee table"⟩,
    ⟨"Macramé Wall Hanging", "Cotton Rope", "Cream", 3500, "Decor", "feature wall"⟩,
    ⟨"Vintage Trunk", "Wood + Leather", "Brown Patina", 11000, "Storage", "foot of bed"⟩,
    ⟨"Persian Rug", "Wool", "Multi-Jewel", 20000, "Textiles", "centre of room"⟩]
  color_scheme := [
    ⟨"Terracotta", "#C4603A", "Primary – walls & pots"⟩,
    ⟨"Mustard Yellow", "#FFDB58", "Accent – cushions & throws"⟩,
    ⟨"Forest Green", "#228B22", "Nature – plants & textiles"⟩,
    ⟨"Deep Teal", "#008080", "Contrast – feature items"⟩]
  tips := [
    "Layer multiple rugs and textiles — Boho is all about rich, tactile depth.",
    "Collect globally: mix Rajasthani block-prints with Mexican woven textiles.",
    "String lights or Moroccan lanterns create warm, dappled evening ambience."]

/-- `STYLE_KNOWLEDGE["Haveli"]`. -/
def haveliData : StyleData where
  furniture := [
    ⟨"Carved Jharokha Frame", "Rajasthani Teak", "Deep Brown", 65000, "Architectural", "feature wall"⟩,
    ⟨"Mughal-style Charpai", "Iron + Jute", "Black/Natural", 18000, "Seating", "courtyard or room"⟩,
    ⟨"Meenakari Lamp", "Copper/Enamel", "Jewel tones", 9000, "Lighting", "entrance hall"⟩,
    ⟨"Antique Almari", "Sheesham", "Aged Teak", 75000, "Storage", "master bedroom"⟩]
  color_scheme := [
    ⟨"Royal Blue", "#4169E1", "Feature – painted niches"⟩,
    ⟨"Saffron Orange", "#FF6700", "Primary – Rajasthani tradition"⟩,
    ⟨"Ivory Stone", "#FFFFF0", "Base – lime-washed walls"⟩,
    ⟨"Forest Green", "#355E3B", "Secondary – peacock motifs"⟩]
  tips := [
    "Introduce jaali (lattice) screens to filter light and create shadow patterns.",
    "Blue pottery from Jaipur and Pichwai paintings are quintessential Haveli accents.",
    "A central chowk (courtyard-like space) with a water feature anchors the space."]

/-- The style knowledge base, in dict insertion order. -/
def STYLE_KNOWLEDGE : List (String × StyleData) := [
  ("Modern", modernData),
  ("Traditional", traditionalData),
  ("Minimalist", minimalistData),
  ("Bohemian", bohemianData),
  ("Haveli", haveliData)]

/-- `_DEFAULT_STYLE`. -/
def _DEFAULT_STYLE : String := "Modern"

/-- `_get_style_data(style)`: knowledge-base entry for the style, falling back
to Modern (`STYLE_KNOWLEDGE[_DEFAULT_STYLE]` is resolved statically — the key
is present, so dict indexing cannot raise). -/
def _get_style_data (style : String) : StyleData :=
  (dictGet STYLE_KNOWLEDGE style).getD modernData

/-- Abstraction of Python's `random` module: a deterministic pseudo-random
generator with explicit state.  `seed n` is `random.seed(n)`; `randint`,
`uniform` and `sample` consume and return the generator state exactly as the
seeded global Mersenne-Twister does.  `randint_range` records the library
guarantee `a ≤ randint(a, b) ≤ b`. -/
structure PyRandom where
  S : Type
  seed : Int → S
  randint : S → Int → Int → Int × S
  uniform : S → ℚ → ℚ → ℚ × S
  sample : S → List FurnitureTemplate → Int → List FurnitureTemplate × S
  randint_range : ∀ s a b, a ≤ b → a ≤ (randint s a b).1 ∧ (randint s a b).1 ≤ b

/-- The optional `dimensions` dict (`length` / `width` keys; a missing key is
`none`). -/
structure Dimensions where
  length : Option ℚ
  width : Option ℚ
deriving DecidableEq, Repr

/-- `project_meta` of a generation result.  `wall_clock_ms` is the key added
by `generate_design` after the pipeline runs (`none` inside `_mock_generate`,
where the dict does not yet contain it). -/
structure ProjectMeta where
  style : String
  room_type : String
  room_area_sqft : Option ℚ
  analysis_id : String
  confidence : ℚ
  processing_time_ms : Int
  model : String
  wall_clock_ms : Option ℚ
deriving DecidableEq, Repr

/-- One entry of the `furniture` output list. -/
structure FurnitureItem where
  id : String
  name : String
  category : String
  material : String
  color : String
  price_inr : Int
  quantity : Int
  available : Bool
  placement : String
  priority : String
deriving DecidableEq, Repr

/-- One entry of the `color_scheme` output list. -/
structure ColorEntry where
  name : String
  hex : String
  rgb : Rgb
  usage : String
  coverage_percent : ℚ
deriving DecidableEq, Repr

/-- The `placement` output dict. -/
structure PlacementPlan where
  strategy : String
  notes : List String
  traffic_flow : String
  natural_light_score : ℚ
deriving DecidableEq, Repr

/-- The `estimated_budget_inr` output dict. -/
structure BudgetInr where
  furniture_total : Int
  labour_estimate : Int
  miscellaneous : Int
  grand_total : Int
deriving DecidableEq, Repr

/-- The full structured result of `_mock_generate` / `generate_design`. -/
structure MockResult where
  project_meta : ProjectMeta
  furniture : List FurnitureItem
  color_scheme : List ColorEntry
  placement : PlacementPlan
  design_tips : List String
  estimated_budget_inr : BudgetInr
deriving DecidableEq, Repr

/-- The furniture-output loop (`for i, item in enumerate(furniture_picks,
start=1)`), building items with ids `FURN-<style[:3].upper()>-<i:03d>`. -/
def buildFurniture (style : String) : Nat → List FurnitureTemplate → List FurnitureItem
  | _, [] => []
  | i, item :: rest =>
    { id := "FURN-" ++ pyUpper (pySlice style 0 3) ++ "-" ++ zfill3 i,
      name := item.name,
      category := item.category,
      material := item.material,
      color := item.color,
      price_inr := item.price_inr,
      quantity := 1,
      available := true,
      placement := item.placement,
      priority := if i = 1 then "recommended" else "optional" } ::
    buildFurniture style (i + 1) rest

/-- The room-area block of `_mock_generate`: if the dimensions dict is
supplied and both `length` and `width` are truthy (present and nonzero), the
area is `round(length * width, 1)`, else `None`. -/
def roomAreaOf (dimensions : Option Dimensions) : Option ℚ :=
  match dimensions with
  | none => none
  | some d =>
    match d.length, d.width with
    | some l, some w => if l ≠ 0 ∧ w ≠ 0 then some (pyRound (l * w) 1) else none
    | _, _ => none

/-- The area-band block of `_mock_generate`: no notes without an area,
small-room notes below 100, medium-room notes from 100 up to (excluding) 200,
large-room notes from 200 up. -/
def bandNotesOf (room_area : Option ℚ) : List String :=
  match room_area with
  | none => []
  | some a =>
    if a < 100 then
      ["Small room: prioritise wall-mounted storage to free floor space.",
       "Use mirrors to create an illusion of depth and light."]
    else if a < 200 then
      ["Medium room: an L-shaped sofa arrangement works well here.",
       "Consider a centrally anchored area rug to define zones."]
    else
      ["Large room: divide into functional zones — seating, dining, and reading.",
       "Use a statement chandelier to visually centre the space."]

/-- The three notes `_mock_generate` always appends to the placement notes:
the fixed clearance note, the light-orientation note, and the style's first
tip. -/
def mockFixedNotes (style : String) : List String :=
  ["Ensure at least 90 cm clearance between all walkways for comfortable circulation.",
   "Position seating to face the primary light source (window/natural light).",
   "For " ++ style ++ " style: " ++ (_get_style_data style).tips.headI]

/-- Python `s[0]` on a list of strings (raises `IndexError` when empty). -/
def pyIndex0 (l : List String) : Except PyError String :=
  match l with
  | [] => .error (.indexError "list index out of range")
  | x :: _ => .ok x

/-- The `color_scheme` list comprehension: for each swatch, in order, decode
the hex (which can raise) and then draw the coverage percentage, threading the
generator state. -/
def buildColors (R : PyRandom) : List ColorSwatch → R.S → Except PyError (List ColorEntry × R.S)
  | [], s => .ok ([], s)
  | c :: rest, s =>
    match _hex_to_rgb c.hex with
    | .error e => .error e
    | .ok rgb =>
      match buildColors R rest (R.uniform s 15 45).2 with
      | .error e => .error e
      | .ok (entries, s2) =>
        .ok ({ name := c.name, hex := c.hex, rgb := rgb, usage := c.usage,
               coverage_percent := pyRound (R.uniform s 15 45).1 1 } :: entries, s2)

/-- `_mock_generate(image_path, style, room_type, dimensions)`.

`R` abstracts the `random` module and `uuid4` is the string drawn by
`uuid.uuid4()` in this call.  The generator is seeded with
`len(image_path) + len(style)` and every draw is threaded in source order:
`randint(3,4)`, `sample`, confidence `uniform`, processing-time `randint`,
one coverage `uniform` per colour swatch, light-score `uniform`, labour
`randint`, miscellaneous `randint`.  The final `grand_total` assignment sums
the three values the budget dict holds at that point. -/
def _mock_generate (R : PyRandom) (uuid4 : String) (image_path style : String)
    (room_type : String) (dimensions : Option Dimensions) :
    Except PyError MockResult :=
  let s0 := R.seed ((image_path.length : Int) + (style.length : Int))
  let style_data := _get_style_data style
  let nd := R.randint s0 3 4
  let n_items : Int := min (style_data.furniture.length : Int) nd.1
  let sd := R.sample nd.2 style_data.furniture n_items
  let furniture_picks := sd.1
  let furniture_output := buildFurniture style 1 furniture_picks
  let room_area : Option ℚ := roomAreaOf dimensions
  let band_notes : List String := bandNotesOf room_area
  match pyIndex0 style_data.tips with
  | .error e => .error e
  | .ok tip0 =>
    let placement_notes := band_notes ++
      ["Ensure at least 90 cm clearance between all walkways for comfortable circulation.",
       "Position seating to face the primary light source (window/natural light).",
       "For " ++ style ++ " style: " ++ tip0]
    let cd := R.uniform sd.2 (78 / 100) (96 / 100)
    let pd := R.randint cd.2 800 2400
    match buildColors R style_data.color_scheme pd.2 with
    | .error e => .error e
    | .ok colors =>
      let ld := R.uniform colors.2 (11 / 2) (19 / 2)
      let lab := R.randint ld.2 15000 45000
      let msc := R.randint lab.2 5000 15000
      let furniture_total := (furniture_picks.map (fun f => f.price_inr)).sum
      .ok {
        project_meta := {
          style := style,
          room_type := room_type,
          room_area_sqft := room_area,
          analysis_id := uuid4,
          confidence := pyRound cd.1 3,
          processing_time_ms := pd.1,
          model := "GruhaAI-Mock-v1.0",
          wall_clock_ms := none },
        furniture := furniture_output,
        color_scheme := colors.1,
        placement := {
          strategy := if 150 < (room_area.getD 0) then "zone-based" else "single-zone",
          notes := placement_notes,
          traffic_flow := if style = "Modern" ∨ style = "Minimalist" then "U-shape" else "open-plan",
          natural_light_score := pyRound ld.1 1 },
        design_tips := style_data.tips,
        estimated_budget_inr := {
          furniture_total := furniture_total,
          labour_estimate := lab.1,
          miscellaneous := msc.1,
          grand_total := furniture_total + lab.1 + msc.1 } }

/-- `generate_design(image_path, style, room_type, dimensions, use_mock)` on
the mock path (`use_mock` resolving to true; the real tier only wraps the
same mock generator with external captioning).  `isFile` abstracts
`os.path.isfile` and `wall_clock` the measured elapsed milliseconds appended
to `project_meta` after generation. -/
def generate_design (isFile : String → Bool) (R : PyRandom) (uuid4 : String)
    (wall_clock : ℚ) (image_path style room_type : String)
    (dimensions : Option Dimensions) : Except PyError MockResult :=
  if isFile image_path = false then
    .error (.fileNotFound ("Image not found: " ++ image_path))
  else
    let style1 := pyTitle (pyStrip style)
    let style2 := if (dictGet STYLE_KNOWLEDGE style1).isSome then style1 else _DEFAULT_STYLE
    match _mock_generate R uuid4 image_path style2 room_type dimensions with
    | .error e => .error e
    | .ok r =>
      .ok { r with project_meta := { r.project_meta with wall_clock_ms := some wall_clock } }

/-- `DESIGN_FAQ`, in dict insertion order (the lookup loop iterates in this
order and the first matching keyword wins). -/
def DESIGN_FAQ : List (String × String) := [
  ("vastu", "Vastu Shastra recommends placing the main entrance facing north or east for positive energy. The master bedroom should be in the south-west."),
  ("color living", "For living rooms, warm neutrals like ivory and beige create welcoming spaces. Accent with teal or gold for an Indian-modern aesthetic."),
  ("small room", "For small rooms: use mirrors, multifunctional furniture, vertical storage, and light colours to create an illusion of space."),
  ("bedroom sleep", "For better sleep, avoid bright colours. Opt for blues, greys, and muted tones. Keep electronics away from the bed."),
  ("kitchen", "For modular kitchens, the work triangle (fridge-hob-sink) should be under 7 metres total. Light wood or white laminates keep it bright."),
  ("budget", "A 2BHK full interior in India typically costs ₹5–15 lakhs depending on quality. Modular furniture reduces cost vs. custom carpentry."),
  ("plants", "Indoor plants like Monstera, Peace Lily, and Snake Plant improve air quality and add biophilic beauty to any Indian home.")]

/-- `VoiceAgent.LANG_GREETINGS`. -/
def LANG_GREETINGS : List (String × String) := [
  ("en", "Hello! I am Gruha Alankara\x27s interior design assistant. How can I help you?"),
  ("hi", "नमस्ते! मैं गृह अलंकार का इंटीरियर डिज़ाइन सहायक हूं। मैं आपकी कैसे मदद कर सकता हूं?"),
  ("te", "నమస్కారం! నేను గృహ అలంకార ఇంటీరియర్ డిజైన్ అసిస్టెంట్ ని. నేను మీకు ఎలా సహాయం చేయగలను?")]

/-- `VoiceAgent._fallback_answer(query)`; both call sites pass the
lower-cased query. -/
def _fallback_answer (query : String) : String :=
  if strContains query "color" || strContains query "colour" || strContains query "paint" then
    "Warm neutrals like ivory, beige, and warm white work well for most Indian homes. Add character with a single accent wall in teal, terracotta, or deep blue."
  else if strContains query "furniture" || strContains query "sofa" || strContains query "bed" || strContains query "chair" then
    "When selecting furniture, consider the room\x27s proportion first. In India, teak and sheesham are durable choices; for modern looks, engineered wood with laminates is cost-effective and attractive."
  else if strContains query "light" || strContains query "lamp" || strContains query "brightness" then
    "Layer your lighting: ambient (ceiling), task (work areas), and accent (decorative). Warm white LEDs (2700–3000K) suit living and bedrooms; cool white (4000K) suits kitchens and offices."
  else
    "Thank you for your question! Gruha Alankara\x27s AI specialises in interior design. Please ask about furniture selection, colour schemes, Vastu guidelines, or room layout suggestions."

/-- `VoiceAgent.answer(query, language)`.

`chain` abstracts the lazily-built LangChain tier: `none` when construction
failed (rule-based fallback is used) and `some predict` when available; a
`predict` exception degrading to the fallback is covered by quantifying over
`predict`'s value.  The FAQ scan, the chain/fallback tier, and the final
short-query greeting override follow the source order. -/
def VoiceAgent_answer (chain : Option (String → String)) (query language : String) : String :=
  let query_lower := pyLower query
  let response :=
    match DESIGN_FAQ.find? (fun kv => strContains query_lower kv.1) with
    | some kv => kv.2
    | none =>
      match chain with
      | some predict => predict query
      | none => _fallback_answer query_lower
  if (pySplitWs (pyStrip query)).length ≤ 2 then
    (dictGet LANG_GREETINGS language).getD
      ((dictGet LANG_GREETINGS "en").getD "")
  else response

/-- `TTSEngine.SUPPORTED_LANGS`. -/
def SUPPORTED_LANGS : List (String × String) := [
  ("en", "en"), ("hi", "hi"), ("te", "te"),
  ("english", "en"), ("hindi", "hi"), ("telugu", "te")]

/-- Outcome of the external gTTS call attempted by `synthesize`:
the import succeeds and `gTTS(...).save(...)` succeeds; the import fails
(`ImportError`); or some other exception escapes the call. -/
inductive GttsOutcome where
  | ok
  | importError
  | otherError (msg : String)
deriving DecidableEq, Repr

/-- What `TTSEngine.synthesize` produces on the non-raising paths: the
returned path, and the placeholder text written when gTTS is missing
(`none` when a genuine MP3 was saved). -/
structure TtsResult where
  path : String
  placeholder : Option String
deriving DecidableEq, Repr

/-- `os.path.join(a, b)` (POSIX, two components). -/
def osPathJoin (a b : String) : String :=
  if ("/".data).isPrefixOf b.data then b
  else if a = "" then b
  else if ("/".data).isSuffixOf a.data then a ++ b
  else a ++ "/" ++ b

/-- Python `out_path.replace(".mp3", ".txt")`: left-to-right, non-overlapping
replacement of every occurrence of the four-character pattern. -/
def replaceMp3Txt : List Char → List Char
  | '.' :: 'm' :: 'p' :: '3' :: rest => '.' :: 't' :: 'x' :: 't' :: replaceMp3Txt rest
  | c :: rest => c :: replaceMp3Txt rest
  | [] => []

/-- The language-code resolution of `TTSEngine.synthesize`:
`SUPPORTED_LANGS.get(language.lower(), "en")`. -/
def resolveLang (language : String) : String :=
  (dictGet SUPPORTED_LANGS (pyLower language)).getD "en"

/-- `TTSEngine.synthesize(text, language, output_dir, filename)`.

`gtts` is the outcome of the external speech-synthesis call and `token` the
value of `uuid.uuid4().hex[:12]` drawn when no filename is supplied.  The
`os.makedirs` side effect has no observable result here and is not modelled. -/
def TTSEngine_synthesize (gtts : GttsOutcome) (token : String)
    (text language output_dir : String) (filename : Option String) :
    Except String TtsResult :=
  let lang_code := resolveLang language
  let fname := (filename.getD ("tts_" ++ token)) ++ ".mp3"
  let out_path := osPathJoin output_dir fname
  match gtts with
  | .ok => .ok { path := out_path, placeholder := none }
  | .importError =>
    let txt_path := String.mk (replaceMp3Txt out_path.data)
    .ok { path := txt_path,
          placeholder := some ("[TTS placeholder] lang=" ++ lang_code ++ "\n" ++ text) }
  | .otherError e => .error ("Text-to-speech synthesis failed: " ++ e)

/-- Override the `analysis_id` field of a result, leaving every other field
unchanged (used to state which fields the unseeded uuid draw can affect). -/
def setAnalysisId (u : String) (r : MockResult) : MockResult :=
  { r with project_meta := { r.project_meta with analysis_id := u } }

/-- A concrete instance of the generator interface (used to evaluate the
embedding on closed inputs): every draw returns the lower bound and `sample`
takes the leading templates. -/
def constRandom : PyRandom where
  S := Unit
  seed := fun _ => ()
  randint := fun s a _ => (a, s)
  uniform := fun s a _ => (a, s)
  sample := fun s pop k => (pop.take k.toNat, s)
  randint_range := fun _ a _ h => ⟨le_refl a, h⟩

/-- The (room-area, placement-notes) view of a generation result, used to
state area-band facts about concrete runs. -/
def areaNotesView (r : MockResult) : Option ℚ × List String :=
  (r.project_meta.room_area_sqft, r.placement.notes)

/-! ## Helper lemmas -/

lemma getStyleData_cases (st : String) :
    _get_style_data st = modernData ∨ _get_style_data st = traditionalData ∨
      _get_style_data st = minimalistData ∨ _get_style_data st = bohemianData ∨
      _get_style_data st = haveliData := by
  unfold _get_style_data STYLE_KNOWLEDGE
  simp only [dictGet]
  split_ifs <;> simp

lemma getStyleData_tips_ne_nil (st : String) : (_get_style_data st).tips ≠ [] := by
  rcases getStyleData_cases st with h | h | h | h | h <;> rw [h] <;>
    simp [modernData, traditionalData, minimalistData, bohemianData, haveliData]

lemma getStyleData_hex_ok (st : String) :
    ∀ c ∈ (_get_style_data st).color_scheme, (_hex_to_rgb c.hex).isOk = true := by
  rcases getStyleData_cases st with h | h | h | h | h <;> rw [h] <;> decide

lemma buildColors_ne_error (R : PyRandom) (sch : List ColorSwatch)
    (hhex : ∀ c ∈ sch, (_hex_to_rgb c.hex).isOk = true) :
    ∀ s e, buildColors R sch s ≠ .error e := by
  induction sch with
  | nil => intro s e h; simp [buildColors] at h
  | cons c rest ih =>
    intro s e h
    have hc := hhex c (List.mem_cons_self c rest)
    rw [buildColors] at h
    split at h
    · rename_i e1 hx
      rw [hx] at hc; simp [Except.toBool, Except.isOk] at hc
    · split at h
      · rename_i e2 hb
        exact ih (fun c2 hm => hhex c2 (List.mem_cons_of_mem c hm)) _ _ hb
      · simp at h

lemma mock_ne_error (R : PyRandom) (u ip st rt : String) (dims : Option Dimensions) :
    ∀ e, _mock_generate R u ip st rt dims ≠ .error e := by
  intro e h
  simp only [_mock_generate] at h
  split at h
  · rename_i e1 hp
    rcases hl : (_get_style_data st).tips with _ | ⟨t0, trest⟩
    · exact getStyleData_tips_ne_nil st hl
    · rw [hl] at hp; simp [pyIndex0] at hp
  · split at h
    · rename_i e2 hb
      exact buildColors_ne_error R _ (getStyleData_hex_ok st) _ _ hb
    · simp at h

lemma mock_ok (R : PyRandom) (u ip st rt : String) (dims : Option Dimensions) :
    ∃ r, _mock_generate R u ip st rt dims = .ok r := by
  cases hm : _mock_generate R u ip st rt dims with
  | error e => exact absurd hm (mock_ne_error R u ip st rt dims e)
  | ok r => exact ⟨r, rfl⟩

lemma buildFurniture_prices (st : String) :
    ∀ (i : Nat) (picks : List FurnitureTemplate),
      (buildFurniture st i picks).map (fun f => f.price_inr) =
        picks.map (fun t => t.price_inr) := by
  intro i picks
  induction picks generalizing i with
  | nil => rfl
  | cons t rest ih => simp [buildFurniture, ih]

lemma mock_fields (R : PyRandom) (u ip st rt : String) (dims : Option Dimensions)
    (r : MockResult) (h : _mock_generate R u ip st rt dims = .ok r) :
    r.project_meta.style = st ∧
    r.project_meta.room_type = rt ∧
    r.project_meta.analysis_id = u ∧
    r.project_meta.room_area_sqft = roomAreaOf dims ∧
    r.placement.notes = bandNotesOf (roomAreaOf dims) ++ mockFixedNotes st ∧
    r.estimated_budget_inr.grand_total =
      r.estimated_budget_inr.furniture_total + r.estimated_budget_inr.labour_estimate +
        r.estimated_budget_inr.miscellaneous ∧
    r.estimated_budget_inr.furniture_total = (r.furniture.map (fun f => f.price_inr)).sum := by
  simp only [_mock_generate] at h
  split at h
  · cases h
  · rename_i tip0 hp
    have htip : (_get_style_data st).tips.headI = tip0 := by
      rcases hl : (_get_style_data st).tips with _ | ⟨a, l⟩
      · exact absurd hl (getStyleData_tips_ne_nil st)
      · rw [hl] at hp; simp [pyIndex0] at hp; simp [hp]
    split at h
    · cases h
    · rename_i colors hb
      cases h
      refine ⟨rfl, rfl, rfl, rfl, by simp [mockFixedNotes, htip], rfl, ?_⟩
      simp [buildFurniture_prices]

lemma mock_analysis_map (R : PyRandom) (u1 u2 ip st rt : String) (dims : Option Dimensions) :
    _mock_generate R u2 ip st rt dims =
      Except.map (setAnalysisId u2) (_mock_generate R u1 ip st rt dims) := by
  simp only [_mock_generate]
  split
  · rfl
  · split
    · rfl
    · simp [Except.map, setAnalysisId]

lemma generate_design_inv (isFile : String → Bool) (R : PyRandom) (u : String) (wc : ℚ)
    (ip st rt : String) (dims : Option Dimensions) (r : MockResult)
    (h : generate_design isFile R u wc ip st rt dims = .ok r) :
    isFile ip = true ∧
    ∃ r0, _mock_generate R u ip
        (if (dictGet STYLE_KNOWLEDGE (pyTitle (pyStrip st))).isSome then pyTitle (pyStrip st)
         else _DEFAULT_STYLE) rt dims = .ok r0 ∧
      r = { r0 with project_meta := { r0.project_meta with wall_clock_ms := some wc } } := by
  simp only [generate_design] at h
  split at h
  · cases h
  · rename_i hf
    constructor
    · cases hfe : isFile ip
      · exact absurd hfe hf
      · rfl
    · split at h
      · cases h
      · rename_i r0 hm
        cases h
        exact ⟨r0, hm, rfl⟩

lemma generate_design_ok (isFile : String → Bool) (R : PyRandom) (u : String) (wc : ℚ)
    (ip st rt : String) (dims : Option Dimensions) (hf : isFile ip = true) :
    ∃ r, generate_design isFile R u wc ip st rt dims = .ok r ∧
      r.project_meta.style =
        (if (dictGet STYLE_KNOWLEDGE (pyTitle (pyStrip st))).isSome then pyTitle (pyStrip st)
         else _DEFAULT_STYLE) := by
  obtain ⟨r0, hm⟩ := mock_ok R u ip
    (if (dictGet STYLE_KNOWLEDGE (pyTitle (pyStrip st))).isSome then pyTitle (pyStrip st)
     else _DEFAULT_STYLE) rt dims
  have hsty := (mock_fields R u ip _ rt dims r0 hm).1
  refine ⟨{ r0 with project_meta := { r0.project_meta with wall_clock_ms := some wc } }, ?_, ?_⟩
  · simp only [generate_design, hf]
    simp only [Bool.true_eq_false, if_false, hm]
  · simpa using hsty

/-! ## Claim theorems -/

/-- C1: mock-mode generation is deterministic in `(image_path, style)`: two
generations with equal image path and style — whatever the room type, the
dimensions, and the unseeded uuid draw of each call — produce the identical
furniture list (same templates, order and count), the identical confidence
value and the identical processing-time value, because the generator is
seeded from the two input strings before any draw. -/
theorem mock_determinism_furniture_confidence_time (R : PyRandom)
    (u1 u2 ip st rt1 rt2 : String) (dims1 dims2 : Option Dimensions) :
    (_mock_generate R u1 ip st rt1 dims1).map
      (fun r => (r.furniture, r.project_meta.confidence, r.project_meta.processing_time_ms)) =
    (_mock_generate R u2 ip st rt2 dims2).map
      (fun r => (r.furniture, r.project_meta.confidence, r.project_meta.processing_time_ms)) := by
  simp only [_mock_generate]
  split
  · rfl
  · split
    · rfl
    · simp [Except.map]

/-- C9: the seed depends only on the lengths of the two strings, so two mock
generations agreeing on style, room type and dimensions whose image paths have
equal character length produce results that agree on every field except the
uuid-drawn `analysis_id` (masked on both sides): distinct equal-length image
paths collide on the same seeded output. -/
theorem mock_seed_length_collision (R : PyRandom) (u1 u2 ip1 ip2 st rt : String)
    (dims : Option Dimensions) (h : ip1.length = ip2.length) :
    (_mock_generate R u1 ip1 st rt dims).map (setAnalysisId "") =
    (_mock_generate R u2 ip2 st rt dims).map (setAnalysisId "") := by
  have h' : (ip1.length : Int) = (ip2.length : Int) := by exact_mod_cast h
  simp only [_mock_generate, h']
  split
  · rfl
  · split
    · rfl
    · simp [Except.map, setAnalysisId]

/-- C9 witness: two distinct 7-character image paths yield the same seeded
output (here with the concrete generator instance). -/
theorem mock_seed_length_collision_witness :
    (_mock_generate constRandom "uA" "roomA.ok" "Haveli" "Living Room" none).map (setAnalysisId "") =
    (_mock_generate constRandom "uB" "roomB.ok" "Haveli" "Living Room" none).map (setAnalysisId "") :=
  mock_seed_length_collision constRandom "uA" "uB" "roomA.ok" "roomB.ok" "Haveli" "Living Room"
    none (by decide)

/-- C10: two mock generations with fully identical arguments agree on every
field except `project_meta.analysis_id`, which equals the respective call's
unseeded uuid draw; when the two draws differ the whole results differ, so
only the seeded fields — not the full record — are reproducible. -/
theorem mock_repeat_differs_only_in_analysis_id (R : PyRandom) (u1 u2 ip st rt : String)
    (dims : Option Dimensions) :
    (_mock_generate R u1 ip st rt dims).map (setAnalysisId "") =
      (_mock_generate R u2 ip st rt dims).map (setAnalysisId "") ∧
    (_mock_generate R u1 ip st rt dims).map (fun r => r.project_meta.analysis_id) = .ok u1 ∧
    (_mock_generate R u2 ip st rt dims).map (fun r => r.project_meta.analysis_id) = .ok u2 ∧
    (u1 ≠ u2 → _mock_generate R u1 ip st rt dims ≠ _mock_generate R u2 ip st rt dims) := by
  obtain ⟨r1, h1⟩ := mock_ok R u1 ip st rt dims
  obtain ⟨r2, h2⟩ := mock_ok R u2 ip st rt dims
  have ha1 := (mock_fields R u1 ip st rt dims r1 h1).2.2.1
  have ha2 := (mock_fields R u2 ip st rt dims r2 h2).2.2.1
  refine ⟨?_, ?_, ?_, ?_⟩
  · simp only [_mock_generate]
    split
    · rfl
    · split
      · rfl
      · simp [Except.map, setAnalysisId]
  · rw [h1]; simp [Except.map, ha1]
  · rw [h2]; simp [Except.map, ha2]
  · intro hne heq
    rw [h1, h2] at heq
    cases heq
    exact hne (ha1 ▸ ha2 ▸ rfl)

/-- C10 witness: with identical inputs but distinct uuid draws "a" and "b",
the analysis ids are "a" and "b" and the full results differ. -/
theorem mock_repeat_differs_witness :
    (_mock_generate constRandom "a" "img.jpg" "Modern" "Living Room" none).map
      (fun r => r.project_meta.analysis_id) = .ok "a" ∧
    _mock_generate constRandom "a" "img.jpg" "Modern" "Living Room" none ≠
      _mock_generate constRandom "b" "img.jpg" "Modern" "Living Room" none :=
  ⟨(mock_repeat_differs_only_in_analysis_id constRandom "a" "b" "img.jpg" "Modern"
      "Living Room" none).2.1,
   (mock_repeat_differs_only_in_analysis_id constRandom "a" "b" "img.jpg" "Modern"
      "Living Room" none).2.2.2 (by decide)⟩

/-- C2: every result returned by the synthesizer satisfies the budget
invariant exactly: `grand_total` equals `furniture_total + labour_estimate +
miscellaneous`, and `furniture_total` equals the sum of the selected
templates' prices (the prices carried by the furniture items of the result). -/
theorem budget_invariant (isFile : String → Bool) (R : PyRandom) (u : String) (wc : ℚ)
    (ip st rt : String) (dims : Option Dimensions) (r : MockResult)
    (h : generate_design isFile R u wc ip st rt dims = .ok r) :
    r.estimated_budget_inr.grand_total =
      r.estimated_budget_inr.furniture_total + r.estimated_budget_inr.labour_estimate +
        r.estimated_budget_inr.miscellaneous ∧
    r.estimated_budget_inr.furniture_total = (r.furniture.map (fun f => f.price_inr)).sum := by
  obtain ⟨-, r0, hm, rfl⟩ := generate_design_inv isFile R u wc ip st rt dims r h
  have hf := mock_fields R u ip _ rt dims r0 hm
  exact ⟨hf.2.2.2.2.2.1, hf.2.2.2.2.2.2⟩

/-- C2 witness: on a concrete run the budget fields check out (75000 =
45000 + 12000 + 18000 furniture, plus 15000 labour and 5000 miscellaneous). -/
theorem budget_invariant_witness :
    (generate_design (fun _ => true) constRandom "u" 5 "/img.jpg" "Modern" "Living Room" none).map
      (fun r => decide (r.estimated_budget_inr.grand_total =
        r.estimated_budget_inr.furniture_total + r.estimated_budget_inr.labour_estimate +
          r.estimated_budget_inr.miscellaneous ∧
        r.estimated_budget_inr.furniture_total =
          (r.furniture.map (fun f => f.price_inr)).sum)) = .ok true := by
  rcases hg : generate_design (fun _ => true) constRandom "u" 5 "/img.jpg" "Modern"
      "Living Room" none with e | r
  · obtain ⟨r0, hr0, -⟩ := generate_design_ok (fun _ => true) constRandom "u" 5 "/img.jpg"
      "Modern" "Living Room" none rfl
    rw [hr0] at hg
    cases hg
  · have hb := budget_invariant (fun _ => true) constRandom "u" 5 "/img.jpg" "Modern"
      "Living Room" none r hg
    simp [Except.map, hb.1, hb.2]

/-- C3: `generate_design` fails with `FileNotFoundError` exactly when the
image path is not an existing file — the check precedes everything else and
the error carries the path — and with an existing image the mock tier
succeeds for every style, room type and dimensions input. -/
theorem generate_design_notfound_iff (isFile : String → Bool) (R : PyRandom) (u : String)
    (wc : ℚ) (ip st rt : String) (dims : Option Dimensions) :
    (isFile ip = false →
      generate_design isFile R u wc ip st rt dims =
        .error (.fileNotFound ("Image not found: " ++ ip))) ∧
    (isFile ip = true → ∃ r, generate_design isFile R u wc ip st rt dims = .ok r) := by
  constructor
  · intro hf
    simp only [generate_design, hf, if_true]
  · intro hf
    obtain ⟨r, hr, -⟩ := generate_design_ok isFile R u wc ip st rt dims hf
    exact ⟨r, hr⟩

/-- C3 witness: a missing path yields the NotFound error, an existing path a
successful result. -/
theorem generate_design_notfound_iff_witness :
    generate_design (fun p => p = "/a.jpg") constRandom "u" 1 "/no/such/file" "Modern"
      "Living Room" none = .error (.fileNotFound "Image not found: /no/such/file") ∧
    (generate_design (fun p => p = "/a.jpg") constRandom "u" 1 "/a.jpg" "" "Kitchen"
      (some ⟨some 3, none⟩)).isOk = true := by
  constructor
  · exact (generate_design_notfound_iff (fun p => p = "/a.jpg") constRandom "u" 1
      "/no/such/file" "Modern" "Living Room" none).1 (by decide)
  · obtain ⟨r, hr⟩ := (generate_design_notfound_iff (fun p => p = "/a.jpg") constRandom "u" 1
      "/a.jpg" "" "Kitchen" (some ⟨some 3, none⟩)).2 (by decide)
    rw [hr]; rfl

/-- C4: any style whose trimmed, title-cased form is not a key of the style
registry (the empty string included) still succeeds and is echoed as the
default style "Modern" in `project_meta.style`; each of the five registered
style names, given verbatim, is echoed unchanged. -/
theorem style_fallback_default (isFile : String → Bool) (R : PyRandom) (u : String) (wc : ℚ)
    (ip st rt : String) (dims : Option Dimensions) (hf : isFile ip = true) :
    ((dictGet STYLE_KNOWLEDGE (pyTitle (pyStrip st))).isSome = false →
      ∃ r, generate_design isFile R u wc ip st rt dims = .ok r ∧
        r.project_meta.style = "Modern") ∧
    (∀ nm ∈ ["Modern", "Traditional", "Minimalist", "Bohemian", "Haveli"],
      ∃ r, generate_design isFile R u wc ip nm rt dims = .ok r ∧
        r.project_meta.style = nm) := by
  constructor
  · intro hun
    obtain ⟨r, hr, hsty⟩ := generate_design_ok isFile R u wc ip st rt dims hf
    refine ⟨r, hr, ?_⟩
    rw [hsty, hun]
    rfl
  · intro nm hnm
    obtain ⟨r, hr, hsty⟩ := generate_design_ok isFile R u wc ip nm rt dims hf
    refine ⟨r, hr, ?_⟩
    rw [hsty]
    fin_cases hnm <;> decide

/-- C4 witness: "NotAStyle" (and the empty string) fall back to "Modern",
while the registered name "Haveli" is echoed verbatim. -/
theorem style_fallback_default_witness :
    (∃ r, generate_design (fun _ => true) constRandom "u" 2 "/i.png" "NotAStyle" "Living Room"
      none = .ok r ∧ r.project_meta.style = "Modern") ∧
    (∃ r, generate_design (fun _ => true) constRandom "u" 2 "/i.png" "" "Living Room"
      none = .ok r ∧ r.project_meta.style = "Modern") ∧
    (∃ r, generate_design (fun _ => true) constRandom "u" 2 "/i.png" "Haveli" "Living Room"
      none = .ok r ∧ r.project_meta.style = "Haveli") :=
  ⟨(style_fallback_default (fun _ => true) constRandom "u" 2 "/i.png" "NotAStyle" "Living Room"
      none rfl).1 (by decide),
   (style_fallback_default (fun _ => true) constRandom "u" 2 "/i.png" "" "Living Room"
      none rfl).1 (by decide),
   (style_fallback_default (fun _ => true) constRandom "u" 2 "/i.png" "arbitrary" "Living Room"
      none rfl).2 "Haveli" (by simp)⟩

/-- C5 counterexample: with length 20 and width 10 (both supplied), the area
is exactly 200.0, which the claim places in the 100–200 medium band, yet the
code takes the `else` branch and emits the two large-room notes. -/
theorem area_band_boundary_cex :
    (_mock_generate constRandom "u" "img.jpg" "Modern" "Living Room"
        (some ⟨some 20, some 10⟩)).map
      areaNotesView =
    .ok (some 200,
      ["Large room: divide into functional zones — seating, dining, and reading.",
       "Use a statement chandelier to visually centre the space.",
       "Ensure at least 90 cm clearance between all walkways for comfortable circulation.",
       "Position seating to face the primary light source (window/natural light).",
       "For Modern style: Keep lines clean and clutter-free — Modern style thrives on negative space."]) := by
  obtain ⟨r, hm⟩ := mock_ok constRandom "u" "img.jpg" "Modern" "Living Room"
    (some ⟨some 20, some 10⟩)
  have hf := mock_fields constRandom "u" "img.jpg" "Modern" "Living Room"
    (some ⟨some 20, some 10⟩) r hm
  have h200 : ((20 : ℚ)) * 10 = 200 := by norm_num
  have harea : roomAreaOf (some ⟨some 20, some 10⟩) = some 200 := by
    have hpr : pyRound ((200 : ℚ)) 1 = 200 := by decide
    simp [roomAreaOf, h200, hpr]
  have hband : bandNotesOf (some (200 : ℚ)) =
      ["Large room: divide into functional zones — seating, dining, and reading.",
       "Use a statement chandelier to visually centre the space."] := by
    have h1 : ¬ ((200 : ℚ) < 100) := by norm_num
    have h2 : ¬ ((200 : ℚ) < 200) := by norm_num
    simp [bandNotesOf, h1, h2]
  rw [hm]
  simp only [Except.map, areaNotesView, hf.2.2.2.1, hf.2.2.2.2.1, harea, hband]
  decide

/-- C5 (amended): when both dimensions are supplied and nonzero (zero values
are falsy and disable the area computation), `room_area` is
`round(length * width, 1)`; areas below 100 produce the two small-room notes,
areas in `[100, 200)` the two medium-room notes, and areas of 200 or more the
two large-room notes; the fixed clearance note, the light-orientation note
and the style's first tip are always appended. -/
theorem area_bands_amended (R : PyRandom) (u ip st rt : String) (l w : ℚ)
    (hl : l ≠ 0) (hw : w ≠ 0) (r : MockResult)
    (h : _mock_generate R u ip st rt (some ⟨some l, some w⟩) = .ok r) :
    r.project_meta.room_area_sqft = some (pyRound (l * w) 1) ∧
    (pyRound (l * w) 1 < 100 →
      r.placement.notes =
        ["Small room: prioritise wall-mounted storage to free floor space.",
         "Use mirrors to create an illusion of depth and light."] ++ mockFixedNotes st) ∧
    (100 ≤ pyRound (l * w) 1 → pyRound (l * w) 1 < 200 →
      r.placement.notes =
        ["Medium room: an L-shaped sofa arrangement works well here.",
         "Consider a centrally anchored area rug to define zones."] ++ mockFixedNotes st) ∧
    (200 ≤ pyRound (l * w) 1 →
      r.placement.notes =
        ["Large room: divide into functional zones — seating, dining, and reading.",
         "Use a statement chandelier to visually centre the space."] ++ mockFixedNotes st) := by
  have hfld := mock_fields R u ip st rt (some ⟨some l, some w⟩) r h
  have harea : roomAreaOf (some ⟨some l, some w⟩) = some (pyRound (l * w) 1) := by
    simp [roomAreaOf, hl, hw]
  refine ⟨by rw [hfld.2.2.2.1, harea], ?_, ?_, ?_⟩
  · intro hsmall
    rw [hfld.2.2.2.2.1, harea]
    simp only [bandNotesOf, if_pos hsmall]
  · intro hge hlt
    rw [hfld.2.2.2.2.1, harea]
    simp only [bandNotesOf, if_neg (by linarith : ¬ pyRound (l * w) 1 < 100), if_pos hlt]
  · intro hge
    rw [hfld.2.2.2.2.1, harea]
    simp only [bandNotesOf, if_neg (by linarith : ¬ pyRound (l * w) 1 < 100),
      if_neg (by linarith : ¬ pyRound (l * w) 1 < 200)]

/-- C5 witness: length 15 and width 12 give area exactly 180.0, in the medium
band. -/
theorem area_bands_amended_witness :
    (_mock_generate constRandom "u" "img.jpg" "Modern" "Living Room"
        (some ⟨some 15, some 12⟩)).map
      areaNotesView =
    .ok (some 180,
      ["Medium room: an L-shaped sofa arrangement works well here.",
       "Consider a centrally anchored area rug to define zones."] ++ mockFixedNotes "Modern") := by
  rcases hm : _mock_generate constRandom "u" "img.jpg" "Modern" "Living Room"
      (some ⟨some 15, some 12⟩) with e | r
  · exact absurd hm (mock_ne_error constRandom "u" "img.jpg" "Modern" "Living Room"
      (some ⟨some 15, some 12⟩) e)
  · have ha := area_bands_amended constRandom "u" "img.jpg" "Modern" "Living Room" 15 12
      (by norm_num) (by norm_num) r hm
    have h180 : pyRound ((15 : ℚ) * 12) 1 = 180 := by
      have he : ((15 : ℚ)) * 12 = 180 := by norm_num
      rw [he]; decide
    have hnotes := ha.2.2.1 (by rw [h180]; norm_num) (by rw [h180]; norm_num)
    simp [Except.map, areaNotesView, ha.1, hnotes, h180]

/-- C6: whenever the trimmed query has at most two whitespace-separated
tokens, `VoiceAgent.answer` returns the fixed greeting for the language code
("en", "hi" or "te"), the English greeting for any other code — discarding
whatever the FAQ, conversational, or rule-based tier produced (the theorem
quantifies over the conversational tier), since the override is applied last
and unconditionally. -/
theorem short_query_greeting_override (chain : Option (String → String))
    (query language : String) (h : (pySplitWs (pyStrip query)).length ≤ 2) :
    (language = "en" → VoiceAgent_answer chain query language =
      "Hello! I am Gruha Alankara\x27s interior design assistant. How can I help you?") ∧
    (language = "hi" → VoiceAgent_answer chain query language =
      "नमस्ते! मैं गृह अलंकार का इंटीरियर डिज़ाइन सहायक हूं। मैं आपकी कैसे मदद कर सकता हूं?") ∧
    (language = "te" → VoiceAgent_answer chain query language =
      "నమస్కారం! నేను గృహ అలంకార ఇంటీరియర్ డిజైన్ అసిస్టెంట్ ని. నేను మీకు ఎలా సహాయం చేయగలను?") ∧
    (language ≠ "en" → language ≠ "hi" → language ≠ "te" →
      VoiceAgent_answer chain query language =
        "Hello! I am Gruha Alankara\x27s interior design assistant. How can I help you?") := by
  refine ⟨?_, ?_, ?_, ?_⟩
  · rintro rfl
    simp only [VoiceAgent_answer, if_pos h]
    rfl
  · rintro rfl
    simp only [VoiceAgent_answer, if_pos h]
    rfl
  · rintro rfl
    simp only [VoiceAgent_answer, if_pos h]
    rfl
  · intro h1 h2 h3
    simp only [VoiceAgent_answer, if_pos h]
    simp [LANG_GREETINGS, dictGet, h1, h2, h3]

/-- C6 witness: "Hi" with an active conversational tier still yields the
greeting, in English, Telugu, and for the unrecognized code "zz". -/
theorem short_query_greeting_override_witness :
    VoiceAgent_answer (some (fun _ => "model output")) "Hi" "en" =
      "Hello! I am Gruha Alankara\x27s interior design assistant. How can I help you?" ∧
    VoiceAgent_answer (some (fun _ => "model output")) "Hi" "te" =
      "నమస్కారం! నేను గృహ అలంకార ఇంటీరియర్ డిజైన్ అసిస్టెంట్ ని. నేను మీకు ఎలా సహాయం చేయగలను?" ∧
    VoiceAgent_answer (some (fun _ => "model output")) "Hi" "zz" =
      "Hello! I am Gruha Alankara\x27s interior design assistant. How can I help you?" :=
  ⟨(short_query_greeting_override (some (fun _ => "model output")) "Hi" "en" (by decide)).1 rfl,
   (short_query_greeting_override (some (fun _ => "model output")) "Hi" "te" (by decide)).2.2.1 rfl,
   (short_query_greeting_override (some (fun _ => "model output")) "Hi" "zz" (by decide)).2.2.2
     (by decide) (by decide) (by decide)⟩

lemma hexDigit_facts (c : Char) (h : isHexDigit c = true) :
    isPyWs c = false ∧ c ≠ '+' ∧ c ≠ '-' ∧ c ≠ '_' ∧ c ≠ 'x' ∧ c ≠ 'X' := by
  refine ⟨?_, ?_, ?_, ?_, ?_, ?_⟩
  · cases hw : isPyWs c
    · rfl
    · exfalso
      have hc : c = ' ' ∨ c = '\t' ∨ c = '\n' ∨ c = '\x0d' ∨ c = '\x0b' ∨ c = '\x0c' := by
        simpa [isPyWs, or_assoc] using hw
      rcases hc with rfl | rfl | rfl | rfl | rfl | rfl <;> exact absurd h (by decide)
  all_goals rintro rfl; exact absurd h (by decide)

lemma pyIntHex_two (c1 c2 : Char) (h1 : isHexDigit c1 = true) (h2 : isHexDigit c2 = true) :
    pyIntHex (String.mk [c1, c2]) = some ((hexVal c1 * 16 + hexVal c2 : ℕ) : Int) := by
  obtain ⟨hw1, hp1, hm1, hu1, hx1, hX1⟩ := hexDigit_facts c1 h1
  obtain ⟨hw2, hp2, hm2, hu2, hx2, hX2⟩ := hexDigit_facts c2 h2
  have hmarker : ¬ (c1 = '0' ∧ (c2 = 'x' ∨ c2 = 'X')) := by
    rintro ⟨-, h | h⟩
    · exact hx2 h
    · exact hX2 h
  simp only [pyIntHex, List.dropWhile_cons, hw1, hw2, Bool.false_eq_true, if_false,
    List.dropWhile_nil, List.reverse_cons, List.reverse_nil, List.nil_append,
    List.cons_append, List.singleton_append]
  simp only [pyIntHexBody, if_neg hp1, if_neg hm1, if_neg hmarker, pyIntHexDigits,
    if_pos h1, hexDigitsVal, if_neg hu2, if_pos h2, Option.map_some]
  rfl

/-- C7 counterexample: "GGGGGG" has six characters after stripping the
marker, contains no hex digits, and the conversion raises `ValueError`
(from `int("GG", 16)`) instead of returning black — so the conversion is not
total. -/
theorem hex_to_rgb_raises_cex :
    _hex_to_rgb "GGGGGG" =
      .error (.valueError "invalid literal for int() with base 16: GG") := by
  decide

/-- C7 (amended): the hex-to-RGB conversion returns black whenever the input
after stripping leading markers does not have exactly 6 characters, and
decodes the three 2-hex-digit channel groups when the 6 characters are hex
digits; however a 6-character input containing a non-hex-digit character
makes the underlying integer parse raise `ValueError`, so the function is not
total on all strings. -/
theorem hex_to_rgb_amended (s : String) :
    ((s.data.dropWhile (fun c => c = '#')).length ≠ 6 → _hex_to_rgb s = .ok ⟨0, 0, 0⟩) ∧
    (∀ c1 c2 c3 c4 c5 c6 : Char,
      s.data.dropWhile (fun c => c = '#') = [c1, c2, c3, c4, c5, c6] →
      isHexDigit c1 = true → isHexDigit c2 = true → isHexDigit c3 = true →
      isHexDigit c4 = true → isHexDigit c5 = true → isHexDigit c6 = true →
      _hex_to_rgb s = .ok ⟨((hexVal c1 * 16 + hexVal c2 : ℕ) : Int),
        ((hexVal c3 * 16 + hexVal c4 : ℕ) : Int), ((hexVal c5 * 16 + hexVal c6 : ℕ) : Int)⟩) := by
  constructor
  · intro hlen
    simp only [_hex_to_rgb]
    rw [if_pos]
    exact hlen
  · intro c1 c2 c3 c4 c5 c6 hdrop h1 h2 h3 h4 h5 h6
    simp only [_hex_to_rgb, hdrop]
    rw [if_neg (by simp [String.length])]
    have e1 : pySlice (String.mk [c1, c2, c3, c4, c5, c6]) 0 2 = String.mk [c1, c2] := rfl
    have e2 : pySlice (String.mk [c1, c2, c3, c4, c5, c6]) 2 4 = String.mk [c3, c4] := rfl
    have e3 : pySlice (String.mk [c1, c2, c3, c4, c5, c6]) 4 6 = String.mk [c5, c6] := rfl
    simp only [e1, e2, e3, pyIntHexE, pyIntHex_two c1 c2 h1 h2, pyIntHex_two c3 c4 h3 h4,
      pyIntHex_two c5 c6 h5 h6]
    rfl

/-- C7 witness: the well-formed swatch "#36454F" decodes to (54, 69, 79) and
the short input "ZZ" yields black. -/
theorem hex_to_rgb_amended_witness :
    _hex_to_rgb "#36454F" = .ok ⟨54, 69, 79⟩ ∧ _hex_to_rgb "ZZ" = .ok ⟨0, 0, 0⟩ := by
  constructor
  · have hd := (hex_to_rgb_amended "#36454F").2 '3' '6' '4' '5' '4' 'F' (by decide)
      (by decide) (by decide) (by decide) (by decide) (by decide) (by decide)
    rw [hd]
    decide
  · exact (hex_to_rgb_amended "ZZ").1 (by decide)

lemma osPathJoin_data (a b : String) : ∃ z, (osPathJoin a b).data = z ++ b.data := by
  unfold osPathJoin
  split_ifs
  · exact ⟨[], rfl⟩
  · exact ⟨[], rfl⟩
  · exact ⟨a.data, rfl⟩
  · exact ⟨(a ++ "/").data, rfl⟩

lemma osPathJoin_ends (a b suf : String) (h : StrEndsWith b suf) :
    StrEndsWith (osPathJoin a b) suf := by
  obtain ⟨z, hz⟩ := osPathJoin_data a b
  unfold StrEndsWith at *
  rw [hz]
  exact h.trans (List.suffix_append z b.data)

lemma replace_append_mp3_ends :
    ∀ (n : Nat) (z : List Char), z.length ≤ n →
      ['.', 't', 'x', 't'] <:+ replaceMp3Txt (z ++ ['.', 'm', 'p', '3']) := by
  intro n
  induction n with
  | zero =>
    intro z hz
    have hznil : z = [] := List.eq_nil_of_length_eq_zero (Nat.le_zero.mp hz)
    subst hznil
    simp only [List.nil_append]
    rw [show replaceMp3Txt ['.', 'm', 'p', '3'] = ['.', 't', 'x', 't'] from rfl]
  | succ n ih =>
    intro z hz
    rcases z with _ | ⟨c, z1⟩
    · simp only [List.nil_append]
      rw [show replaceMp3Txt ['.', 'm', 'p', '3'] = ['.', 't', 'x', 't'] from rfl]
    rcases z1 with _ | ⟨a1, z2⟩
    · rw [List.cons_append, List.nil_append,
        replaceMp3Txt.eq_2 c _ (fun rest' hc h => by simp at h)]
      rw [show replaceMp3Txt ['.', 'm', 'p', '3'] = ['.', 't', 'x', 't'] from rfl]
      exact List.suffix_cons c _
    rcases z2 with _ | ⟨a2, z3⟩
    · rw [List.cons_append, List.cons_append, List.nil_append,
        replaceMp3Txt.eq_2 c _ (fun rest' hc h => by simp at h)]
      have hsub := ih [a1] (by simpa using Nat.le_of_succ_le_succ hz)
      exact (hsub.trans (List.suffix_cons c _))
    rcases z3 with _ | ⟨a3, z4⟩
    · rw [List.cons_append, List.cons_append, List.cons_append, List.nil_append,
        replaceMp3Txt.eq_2 c _ (fun rest' hc h => by simp at h)]
      have hsub := ih [a1, a2] (by simp at hz ⊢; omega)
      exact (hsub.trans (List.suffix_cons c _))
    by_cases hpat : c = '.' ∧ a1 = 'm' ∧ a2 = 'p' ∧ a3 = '3'
    · obtain ⟨rfl, rfl, rfl, rfl⟩ := hpat
      simp only [List.cons_append]
      rw [replaceMp3Txt.eq_1]
      have hsub := ih z4 (by simp at hz; omega)
      exact (((hsub.trans (List.suffix_cons 't' _)).trans (List.suffix_cons 'x' _)).trans
        (List.suffix_cons 't' _)).trans (List.suffix_cons '.' _)
    · simp only [List.cons_append]
      rw [replaceMp3Txt.eq_2 c _ (fun rest' hc h => by
        simp only [List.cons.injEq] at h
        exact hpat ⟨hc, h.1, h.2.1, h.2.2.1⟩)]
      have hsub := ih (a1 :: a2 :: a3 :: z4) (by simp at hz ⊢; omega)
      rw [List.cons_append, List.cons_append, List.cons_append] at hsub
      exact hsub.trans (List.suffix_cons c _)

/-- C8: the speech adapter distinguishes its failure classes — when the
speech library import fails it still returns a valid path, with the `.mp3`
extension changed to `.txt` and the placeholder content being the marker plus
the original text; any other synthesis error surfaces as a RuntimeError-style
failure; on success the returned path ends in `.mp3` (caller-supplied stem or
generated token); and an unrecognized language resolves to "en" without
erroring. -/
theorem tts_failure_modes (token text language output_dir : String)
    (filename : Option String) :
    (∀ res, TTSEngine_synthesize .ok token text language output_dir filename = .ok res →
      StrEndsWith res.path ".mp3" ∧ res.placeholder = none) ∧
    (∀ res, TTSEngine_synthesize .importError token text language output_dir filename =
        .ok res →
      StrEndsWith res.path ".txt" ∧
      res.placeholder =
        some ("[TTS placeholder] lang=" ++ resolveLang language ++ "\n" ++ text)) ∧
    (∀ msg, TTSEngine_synthesize (.otherError msg) token text language output_dir filename =
      .error ("Text-to-speech synthesis failed: " ++ msg)) ∧
    (dictGet SUPPORTED_LANGS (pyLower language) = none → resolveLang language = "en") := by
  refine ⟨?_, ?_, ?_, ?_⟩
  · intro res h
    simp only [TTSEngine_synthesize] at h
    cases h
    refine ⟨?_, rfl⟩
    apply osPathJoin_ends
    show (".mp3" : String).data <:+ _
    exact List.suffix_append _ _
  · intro res h
    simp only [TTSEngine_synthesize] at h
    cases h
    refine ⟨?_, rfl⟩
    obtain ⟨z, hz⟩ :=
      osPathJoin_data output_dir ((filename.getD ("tts_" ++ token)) ++ ".mp3")
    show (".txt" : String).data <:+ (String.mk (replaceMp3Txt _)).data
    rw [show ∀ l, (String.mk l).data = l from fun _ => rfl, hz]
    rw [show ((filename.getD ("tts_" ++ token)) ++ ".mp3").data =
      (filename.getD ("tts_" ++ token)).data ++ ['.', 'm', 'p', '3'] from rfl]
    rw [← List.append_assoc]
    exact replace_append_mp3_ends (z ++ (filename.getD ("tts_" ++ token)).data).length _
      (le_refl _)
  · intro msg
    rfl
  · intro h
    simp only [resolveLang, h, Option.getD_none]

/-- C8 witness: with gTTS missing and the unrecognized language "zz", the
call returns the `.txt` placeholder path with the marker content (resolved to
"en"); a runtime error surfaces as a synthesis failure; a successful call
returns an `.mp3` path. -/
theorem tts_failure_modes_witness :
    TTSEngine_synthesize .importError "ab12cd34ef56" "hello" "zz" "/tmp" none =
      .ok ⟨"/tmp/tts_ab12cd34ef56.txt", some "[TTS placeholder] lang=en\nhello"⟩ ∧
    StrEndsWith "/tmp/tts_ab12cd34ef56.txt" ".txt" ∧
    TTSEngine_synthesize (.otherError "boom") "ab12cd34ef56" "hello" "en" "/tmp" none =
      .error "Text-to-speech synthesis failed: boom" ∧
    resolveLang "zz" = "en" := by
  have h1 := (tts_failure_modes "ab12cd34ef56" "hello" "zz" "/tmp" none).2.1
    ⟨"/tmp/tts_ab12cd34ef56.txt", some "[TTS placeholder] lang=en\nhello"⟩ (by decide)
  have h2 := (tts_failure_modes "ab12cd34ef56" "hello" "en" "/tmp" none).2.2.1 "boom"
  have h3 := (tts_failure_modes "ab12cd34ef56" "hello" "zz" "/tmp" none).2.2.2 (by decide)
  exact ⟨by decide, h1.1, h2, h3⟩
